import Mathlib

/-!
# Student records API (backend/server.js)

A shallow embedding of the Express handlers of `src/backend/server.js` and of the
`students` table they talk to.

* The five data handlers are embedded as functions over an arbitrary `pool.query`
  (a state-passing function from a statement with its bound parameters to either
  the thrown error message or `result.rows`).  Each handler is the source's
  `try { ... } catch (err) { res.status(500).json({ error: err.message }) }`.
* `execute` is the model of the store behind the pool: the table created by the
  `CREATE TABLE IF NOT EXISTS students (...)` statement of lines 18-26 with its
  column types and constraints, and the five SQL statements the handlers send.
-/

namespace StudentApp

/-! ## Data model -/

/-- A row of the `students` table: `id SERIAL PRIMARY KEY`, `roll INTEGER UNIQUE NOT NULL`,
`name VARCHAR(100) NOT NULL`, `class VARCHAR(50) NOT NULL` (the column `class` is called
`studentClass`, the name the handlers bind it to). -/
structure Student where
  id : Int
  roll : Int
  name : String
  studentClass : String
deriving DecidableEq, Repr

/-- The fields `const { roll, name, class: studentClass } = req.body` of a request body.
`none` is a field that is absent (JavaScript `undefined`, bound as SQL `NULL`). -/
structure StudentBody where
  roll : Option Int
  name : Option String
  studentClass : Option String
deriving DecidableEq, Repr

/-- The five statements the handlers send, each with its bound parameters in the
order of the source's parameter array. -/
inductive Statement where
  /-- The text `SELECT * FROM students ORDER BY roll`. -/
  | selectAll
  /-- The text `SELECT * FROM students WHERE id = $1`. -/
  | selectById (id : Int)
  /-- The text `INSERT INTO students (roll, name, class) VALUES ($1, $2, $3) RETURNING *`. -/
  | insert (roll : Option Int) (name : Option String) (studentClass : Option String)
  /-- The text `UPDATE students SET roll = $1, name = $2, class = $3 WHERE id = $4 RETURNING *`. -/
  | update (roll : Option Int) (name : Option String) (studentClass : Option String) (id : Int)
  /-- The text `DELETE FROM students WHERE id = $1 RETURNING *`. -/
  | delete (id : Int)
deriving DecidableEq, Repr

/-- What `await pool.query(...)` gives a handler: the message of the exception it
throws, or `result.rows`. -/
abbrev QueryResult := Except String (List Student)

/-- The `pool.query` a handler runs against, over a store state of type `σ`. -/
abbrev Pool (σ : Type) := σ → Statement → QueryResult × σ

/-- The JSON body a handler sends. -/
inductive Payload where
  /-- An array of student objects, `res.json(result.rows)`. -/
  | students (rows : List Student)
  /-- One student object, `res.json(result.rows[0])`. -/
  | student (row : Student)
  /-- The value of `result.rows[0]` when `result.rows` is empty. -/
  | undefined
  /-- The object `{ error: msg }`. -/
  | error (msg : String)
  /-- The object `{ message: msg }`. -/
  | message (msg : String)
deriving DecidableEq, Repr

/-- Status code and body of an HTTP response; `res.json` without `res.status` is 200. -/
structure Response where
  status : Nat
  body : Payload
deriving DecidableEq, Repr

/-! ## The handlers (server.js lines 34-98) -/

/-- Handler `app.get('/api/students')`, lines 34-41. -/
def getStudents {σ : Type} (query : Pool σ) (db : σ) : Response × σ :=
  match query db Statement.selectAll with
  | (Except.ok rows, db') => (⟨200, Payload.students rows⟩, db')
  | (Except.error msg, db') => (⟨500, Payload.error msg⟩, db')

/-- Handler `app.get('/api/students/:id')`, lines 44-54. -/
def getStudentById {σ : Type} (query : Pool σ) (db : σ) (id : Int) : Response × σ :=
  match query db (Statement.selectById id) with
  | (Except.ok [], db') => (⟨404, Payload.error "Student not found"⟩, db')
  | (Except.ok (row :: _), db') => (⟨200, Payload.student row⟩, db')
  | (Except.error msg, db') => (⟨500, Payload.error msg⟩, db')

/-- Handler `app.post('/api/students')`, lines 57-68. -/
def createStudent {σ : Type} (query : Pool σ) (db : σ) (body : StudentBody) : Response × σ :=
  match query db (Statement.insert body.roll body.name body.studentClass) with
  | (Except.ok [], db') => (⟨201, Payload.undefined⟩, db')
  | (Except.ok (row :: _), db') => (⟨201, Payload.student row⟩, db')
  | (Except.error msg, db') => (⟨500, Payload.error msg⟩, db')

/-- Handler `app.put('/api/students/:id')`, lines 71-85. -/
def updateStudent {σ : Type} (query : Pool σ) (db : σ) (id : Int) (body : StudentBody) :
    Response × σ :=
  match query db (Statement.update body.roll body.name body.studentClass id) with
  | (Except.ok [], db') => (⟨404, Payload.error "Student not found"⟩, db')
  | (Except.ok (row :: _), db') => (⟨200, Payload.student row⟩, db')
  | (Except.error msg, db') => (⟨500, Payload.error msg⟩, db')

/-- Handler `app.delete('/api/students/:id')`, lines 88-98. -/
def deleteStudent {σ : Type} (query : Pool σ) (db : σ) (id : Int) : Response × σ :=
  match query db (Statement.delete id) with
  | (Except.ok [], db') => (⟨404, Payload.error "Student not found"⟩, db')
  | (Except.ok (_ :: _), db') => (⟨200, Payload.message "Student deleted"⟩, db')
  | (Except.error msg, db') => (⟨500, Payload.error msg⟩, db')

/-! ## The store: the `students` table of lines 18-26 -/

/-- State of the store: the live rows of `students` in insertion order, and the next
value of the sequence behind `id SERIAL`. -/
structure Store where
  rows : List Student
  nextId : Nat
deriving DecidableEq, Repr

/-- The table right after `CREATE TABLE IF NOT EXISTS students`: no rows, sequence at 1. -/
def init : Store := ⟨[], 1⟩

/-- Range of the SQL type `INTEGER` (and of `SERIAL`): 32-bit signed. -/
def inInt4 (n : Int) : Bool := decide (-2147483648 ≤ n) && decide (n ≤ 2147483647)

/-- Binding a parameter to an `INTEGER` column: a value outside the 32-bit range is
an error, `NULL` passes. -/
def bindInteger (v : Option Int) : Except String (Option Int) :=
  match v with
  | none => Except.ok none
  | some n =>
    if inInt4 n then Except.ok (some n)
    else Except.error ("value \"" ++ toString n ++ "\" is out of range for type integer")

/-- The text holds the character U+0000, which the store takes in no text value. -/
def hasNul (t : String) : Bool := t.data.any (fun c => c == Char.ofNat 0)

/-- Assigning a parameter to a `VARCHAR(n)` column: a text holding U+0000 is an error; a
value of more than `n` characters is an error unless every character past the `n`-th is
a space, in which case the value is cut to `n` characters; `NULL` passes. -/
def bindVarchar (n : Nat) (v : Option String) : Except String (Option String) :=
  match v with
  | none => Except.ok none
  | some t =>
    if hasNul t then Except.error "invalid byte sequence for encoding \"UTF8\": 0x00"
    else if t.length ≤ n then Except.ok (some t)
    else if (t.data.drop n).all (fun c => c == ' ') then
      Except.ok (some (String.mk (t.data.take n)))
    else Except.error ("value too long for type character varying(" ++ toString n ++ ")")

/-- The clause `ORDER BY roll`: the rows in ascending order of `roll`. -/
def orderByRoll (rows : List Student) : List Student :=
  rows.insertionSort (fun a b => a.roll ≤ b.roll)

/-- The `NOT NULL` constraints of `roll`, `name` and `class` on the values of a new or
updated row: the three values, or the error of the first column that is `NULL`. -/
def notNull (roll : Option Int) (name studentClass : Option String) :
    Except String (Int × String × String) :=
  match roll, name, studentClass with
  | none, _, _ =>
    Except.error "null value in column \"roll\" of relation \"students\" violates not-null constraint"
  | some _, none, _ =>
    Except.error "null value in column \"name\" of relation \"students\" violates not-null constraint"
  | some _, some _, none =>
    Except.error "null value in column \"class\" of relation \"students\" violates not-null constraint"
  | some r, some n, some c => Except.ok (r, n, c)

/-- Execution of `INSERT ... RETURNING *` on bound values.  The sequence gives the new
`id` and keeps its advance also when the row is then refused; the row is refused on a
`NULL` in a `NOT NULL` column, on an `id` in use (`PRIMARY KEY`) and on a `roll` in use
(`UNIQUE`). -/
def insertRow (s : Store) (roll : Option Int) (name studentClass : Option String) :
    QueryResult × Store :=
  if 2147483647 < s.nextId then
    (Except.error "nextval: reached maximum value of sequence \"students_id_seq\" (2147483647)", s)
  else
    let s1 : Store := ⟨s.rows, s.nextId + 1⟩
    match notNull roll name studentClass with
    | Except.error msg => (Except.error msg, s1)
    | Except.ok (r, n, c) =>
      if s.rows.any (fun x => x.id == (s.nextId : Int)) then
        (Except.error "duplicate key value violates unique constraint \"students_pkey\"", s1)
      else if s.rows.any (fun x => x.roll == r) then
        (Except.error "duplicate key value violates unique constraint \"students_roll_key\"", s1)
      else
        let row : Student := ⟨(s.nextId : Int), r, n, c⟩
        (Except.ok [row], ⟨s.rows ++ [row], s.nextId + 1⟩)

/-- The clause `SET roll = $1, name = $2, class = $3 WHERE id = $4` on one row: a row of
that `id` gets the three values and keeps its `id`, any other row stays as it is. -/
def assign (id : Int) (r : Int) (n c : String) (x : Student) : Student :=
  if x.id = id then ⟨x.id, r, n, c⟩ else x

/-- Execution of `UPDATE ... WHERE id = $4 RETURNING *` on bound values.  With no row of
that `id` nothing is checked and nothing changes.  Otherwise every matched row gets the
three values in place; the statement is refused on a `NULL` in a `NOT NULL` column and
when afterwards more than one row would carry the new `roll` (`UNIQUE`). -/
def updateRow (s : Store) (roll : Option Int) (name studentClass : Option String) (id : Int) :
    QueryResult × Store :=
  if s.rows.any (fun x => x.id == id) then
    match notNull roll name studentClass with
    | Except.error msg => (Except.error msg, s)
    | Except.ok (r, n, c) =>
      if 1 < ((s.rows.map (assign id r n c)).filter (fun x => x.roll == r)).length then
        (Except.error "duplicate key value violates unique constraint \"students_roll_key\"", s)
      else
        (Except.ok ((s.rows.map (assign id r n c)).filter (fun x => x.id == id)),
          ⟨s.rows.map (assign id r n c), s.nextId⟩)
  else (Except.ok [], s)

/-- Binding the three body parameters to the column types `INTEGER`, `VARCHAR(100)` and
`VARCHAR(50)`: the bound values, or the first error. -/
def bindFields (roll : Option Int) (name studentClass : Option String) :
    Except String (Option Int × Option String × Option String) :=
  match bindInteger roll with
  | Except.error msg => Except.error msg
  | Except.ok r =>
    match bindVarchar 100 name with
    | Except.error msg => Except.error msg
    | Except.ok n =>
      match bindVarchar 50 studentClass with
      | Except.error msg => Except.error msg
      | Except.ok c => Except.ok (r, n, c)

/-- The message of an `id` parameter outside the range of `INTEGER`. -/
def outOfRange (id : Int) : String :=
  "value \"" ++ toString id ++ "\" is out of range for type integer"

/-- The store behind `pool.query`: each statement first binds its parameters to the
column types (an error there leaves the store as it was), then runs. -/
def execute : Pool Store := fun s stmt =>
  match stmt with
  | Statement.selectAll => (Except.ok (orderByRoll s.rows), s)
  | Statement.selectById id =>
    if inInt4 id then (Except.ok (s.rows.filter (fun x => x.id == id)), s)
    else (Except.error (outOfRange id), s)
  | Statement.insert roll name studentClass =>
    match bindFields roll name studentClass with
    | Except.error msg => (Except.error msg, s)
    | Except.ok (r, n, c) => insertRow s r n c
  | Statement.update roll name studentClass id =>
    match bindFields roll name studentClass with
    | Except.error msg => (Except.error msg, s)
    | Except.ok (r, n, c) =>
      if inInt4 id then updateRow s r n c id
      else (Except.error (outOfRange id), s)
  | Statement.delete id =>
    if inInt4 id then
      (Except.ok (s.rows.filter (fun x => x.id == id)),
        ⟨s.rows.filter (fun x => !(x.id == id)), s.nextId⟩)
    else (Except.error (outOfRange id), s)

/-! ## Requests against the store -/

/-- A request to one of the five data routes. -/
inductive Request where
  | list
  | get (id : Int)
  | create (body : StudentBody)
  | update (id : Int) (body : StudentBody)
  | delete (id : Int)
deriving DecidableEq, Repr

/-- One request served against the store. -/
def serve (s : Store) (req : Request) : Response × Store :=
  match req with
  | Request.list => getStudents execute s
  | Request.get id => getStudentById execute s id
  | Request.create body => createStudent execute s body
  | Request.update id body => updateStudent execute s id body
  | Request.delete id => deleteStudent execute s id

/-- The store after a sequence of requests, served one after the other. -/
def serveAll (s : Store) (reqs : List Request) : Store :=
  reqs.foldl (fun st req => (serve st req).2) s

/-- No two rows share a `roll`. -/
def rollsUnique (s : Store) : Prop := (s.rows.map (fun x => x.roll)).Nodup

instance (s : Store) : Decidable (rollsUnique s) :=
  inferInstanceAs (Decidable (List.Nodup (s.rows.map (fun x : Student => x.roll))))

/-- No two rows share an `id`. -/
def idsUnique (s : Store) : Prop := (s.rows.map (fun x => x.id)).Nodup

instance (s : Store) : Decidable (idsUnique s) :=
  inferInstanceAs (Decidable (List.Nodup (s.rows.map (fun x : Student => x.id))))

/-- A parameter fits an `INTEGER` column: absent, or within the 32-bit range. -/
def fitsInteger (v : Option Int) : Bool :=
  match v with
  | none => true
  | some k => inInt4 k

/-- A parameter fits a `VARCHAR(n)` column: absent, or a text without U+0000 that has at
most `n` characters or is longer by spaces only. -/
def fitsVarchar (n : Nat) (v : Option String) : Bool :=
  match v with
  | none => true
  | some t =>
    !(hasNul t) && (decide (t.length ≤ n) || (t.data.drop n).all (fun c => c == ' '))

/-- The three fields of a body fit the columns `roll`, `name` and `class`. -/
def fitsColumns (body : StudentBody) : Bool :=
  fitsInteger body.roll && fitsVarchar 100 body.name && fitsVarchar 50 body.studentClass

/-- The table holding the scenario's one student. -/
def aliceStore : Store := ⟨[⟨1, 1, "Alice", "10A"⟩], 2⟩

/-- A table of two students. -/
def twoStudents : Store := ⟨[⟨1, 1, "Alice", "10A"⟩, ⟨2, 2, "Bob", "9B"⟩], 3⟩

/-- A pool whose every query throws the given message. -/
def failingPool (msg : String) : Pool Store := fun s _ => (Except.error msg, s)

/-- The body of the end-to-end scenario: roll 1, Alice, class 10A. -/
def alice : StudentBody := ⟨some 1, some "Alice", some "10A"⟩

/-- A body whose name is 100 letters followed by one space: 101 characters. -/
def paddedName : String := String.mk (List.replicate 100 'a' ++ [' '])

/-- A create or update body with the padded name. -/
def paddedBody : StudentBody := ⟨some 7, some paddedName, some "10A"⟩

/-- A three-character name whose second character is U+0000. -/
def nulName : String := String.mk ['a', Char.ofNat 0, 'b']

/-! ## Facts about binding and the constraints -/

theorem bindInteger_ok {v r : Option Int} (h : bindInteger v = Except.ok r) : r = v := by
  cases v with
  | none => simp [bindInteger] at h; exact h.symm
  | some k =>
    by_cases hk : inInt4 k = true
    · simp [bindInteger, hk] at h; exact h.symm
    · simp [bindInteger, hk] at h

theorem bindInteger_inRange {r : Int} (h : inInt4 r = true) :
    bindInteger (some r) = Except.ok (some r) := by
  simp [bindInteger, h]

theorem bindVarchar_short {n : Nat} {t : String} (h0 : hasNul t = false)
    (h : t.length ≤ n) : bindVarchar n (some t) = Except.ok (some t) := by
  simp [bindVarchar, h0, h]

theorem bindVarchar_none {n : Nat} {v w : Option String} (h : bindVarchar n v = Except.ok w)
    (hv : v = none) : w = none := by
  subst hv
  simp [bindVarchar] at h
  exact h.symm

theorem bindFields_typed {r : Int} {n c : String} (hr : inInt4 r = true)
    (hn0 : hasNul n = false) (hn : n.length ≤ 100)
    (hc0 : hasNul c = false) (hc : c.length ≤ 50) :
    bindFields (some r) (some n) (some c) = Except.ok (some r, some n, some c) := by
  simp [bindFields, bindInteger_inRange hr, bindVarchar_short hn0 hn,
    bindVarchar_short hc0 hc]

theorem bindFields_ok {roll : Option Int} {name cls : Option String}
    {r : Option Int} {n c : Option String}
    (h : bindFields roll name cls = Except.ok (r, n, c)) :
    r = roll ∧ (name = none → n = none) ∧ (cls = none → c = none) := by
  unfold bindFields at h
  cases h1 : bindInteger roll with
  | error m => simp [h1] at h
  | ok r1 =>
    cases h2 : bindVarchar 100 name with
    | error m => simp [h1, h2] at h
    | ok n1 =>
      cases h3 : bindVarchar 50 cls with
      | error m => simp [h1, h2, h3] at h
      | ok c1 =>
        simp [h1, h2, h3] at h
        obtain ⟨hr, hn, hc⟩ := h
        subst hr hn hc
        exact ⟨bindInteger_ok h1, bindVarchar_none h2, bindVarchar_none h3⟩

theorem notNull_ok {roll : Option Int} {name cls : Option String} {r : Int} {n c : String}
    (h : notNull roll name cls = Except.ok (r, n, c)) :
    roll = some r ∧ name = some n ∧ cls = some c := by
  cases roll <;> cases name <;> cases cls <;> simp [notNull] at h
  simpa using h

/-- A failed `INSERT` leaves the rows as they were. -/
theorem insertRow_error_rows (s : Store) (roll : Option Int) (name cls : Option String)
    (msg : String) (h : (insertRow s roll name cls).1 = Except.error msg) :
    (insertRow s roll name cls).2.rows = s.rows := by
  by_cases h0 : 2147483647 < s.nextId
  · simp [insertRow, h0]
  · cases hnn : notNull roll name cls with
    | error m => simp [insertRow, h0, hnn]
    | ok v =>
      obtain ⟨r, n, c⟩ := v
      by_cases h1 : (s.rows.any fun x => x.id == (s.nextId : Int)) = true
      · simp [insertRow, h0, hnn, h1]
      · by_cases h2 : (s.rows.any fun x => x.roll == r) = true
        · simp [insertRow, h0, hnn, h1, h2]
        · simp [insertRow, h0, hnn, h1, h2] at h

/-- What a successful `INSERT` says about its parameters and the store: the execution
is `insertRow` on the bound values, the three fields are present and the roll is not
in use. -/
theorem execute_insert_ok {s : Store} {roll : Option Int} {name cls : Option String}
    {rows : List Student}
    (h : (execute s (Statement.insert roll name cls)).1 = Except.ok rows) :
    ∃ r : Int, roll = some r ∧ name ≠ none ∧ cls ≠ none ∧ ∀ x ∈ s.rows, x.roll ≠ r := by
  simp only [execute] at h
  cases hb : bindFields roll name cls with
  | error m => simp [hb] at h
  | ok v =>
    obtain ⟨r1, n1, c1⟩ := v
    obtain ⟨hr, hn, hc⟩ := bindFields_ok hb
    simp only [hb] at h
    by_cases h0 : 2147483647 < s.nextId
    · simp [insertRow, h0] at h
    · cases hnn : notNull r1 n1 c1 with
      | error m => simp [insertRow, h0, hnn] at h
      | ok w =>
        obtain ⟨r, n, c⟩ := w
        obtain ⟨er, en, ec⟩ := notNull_ok hnn
        by_cases h1 : (s.rows.any fun x => x.id == (s.nextId : Int)) = true
        · simp [insertRow, h0, hnn, h1] at h
        · by_cases h2 : (s.rows.any fun x => x.roll == r) = true
          · simp [insertRow, h0, hnn, h1, h2] at h
          · refine ⟨r, ?_, ?_, ?_, ?_⟩
            · rw [← hr, er]
            · intro hnone
              rw [hn hnone] at en
              cases en
            · intro hnone
              rw [hc hnone] at ec
              cases ec
            · intro x hx hxr
              apply h2
              simp only [List.any_eq_true, beq_iff_eq]
              exact ⟨x, hx, hxr⟩

/-- A failed `INSERT` statement leaves the rows as they were. -/
theorem execute_insert_error_rows (s : Store) (roll : Option Int) (name cls : Option String)
    (msg : String) (h : (execute s (Statement.insert roll name cls)).1 = Except.error msg) :
    (execute s (Statement.insert roll name cls)).2.rows = s.rows := by
  simp only [execute] at h ⊢
  cases hb : bindFields roll name cls with
  | error m => simp
  | ok v =>
    obtain ⟨r1, n1, c1⟩ := v
    simp only [hb] at h ⊢
    exact insertRow_error_rows s r1 n1 c1 msg h

/-- The `catch` branch of the create handler. -/
theorem createStudent_error {σ : Type} (query : Pool σ) (db : σ) (body : StudentBody)
    (msg : String)
    (h : (query db (Statement.insert body.roll body.name body.studentClass)).1
      = Except.error msg) :
    createStudent query db body = (⟨500, Payload.error msg⟩,
      (query db (Statement.insert body.roll body.name body.studentClass)).2) := by
  unfold createStudent
  rcases hq : query db (Statement.insert body.roll body.name body.studentClass) with ⟨res, db'⟩
  rw [hq] at h
  simp only at h
  subst h
  rfl

/-- A create request the store refuses: status 500 with the message, rows as before. -/
theorem createStudent_refused (s : Store) (body : StudentBody)
    (h : ∀ rows, (execute s (Statement.insert body.roll body.name body.studentClass)).1
      ≠ Except.ok rows) :
    (∃ msg, (createStudent execute s body).1 = ⟨500, Payload.error msg⟩) ∧
      (createStudent execute s body).2.rows = s.rows := by
  cases hq : (execute s (Statement.insert body.roll body.name body.studentClass)).1 with
  | ok rows => exact absurd hq (h rows)
  | error msg =>
    rw [createStudent_error execute s body msg hq]
    exact ⟨⟨msg, rfl⟩, execute_insert_error_rows s _ _ _ msg hq⟩

/-- The successful `INSERT` of a typed, fresh row. -/
theorem execute_insert_fresh (s : Store) (r : Int) (n c : String)
    (hseq : s.nextId ≤ 2147483647) (hid : ∀ x ∈ s.rows, x.id ≠ (s.nextId : Int))
    (hr : inInt4 r = true) (hfresh : ∀ x ∈ s.rows, x.roll ≠ r)
    (hn0 : hasNul n = false) (hn : n.length ≤ 100)
    (hc0 : hasNul c = false) (hc : c.length ≤ 50) :
    execute s (Statement.insert (some r) (some n) (some c))
      = (Except.ok [⟨s.nextId, r, n, c⟩], ⟨s.rows ++ [⟨s.nextId, r, n, c⟩], s.nextId + 1⟩) := by
  have h0 : ¬ 2147483647 < s.nextId := by omega
  have h1 : ¬ (s.rows.any fun x => x.id == (s.nextId : Int)) = true := by
    simp only [List.any_eq_true, beq_iff_eq, not_exists, not_and]
    exact hid
  have h2 : ¬ (s.rows.any fun x => x.roll == r) = true := by
    simp only [List.any_eq_true, beq_iff_eq, not_exists, not_and]
    exact hfresh
  simp only [execute, bindFields_typed hr hn0 hn hc0 hc, insertRow, notNull]
  rw [if_neg h0, if_neg h1, if_neg h2]

theorem inInt4_nextId (k : Nat) (h : k ≤ 2147483647) : inInt4 (k : Int) = true := by
  simp only [inInt4, Bool.and_eq_true, decide_eq_true_eq]
  omega

/-! ## Facts about `UPDATE` and `DELETE` -/

theorem bindFields_fits {body : StudentBody} (h : fitsColumns body = true) :
    ∃ v, bindFields body.roll body.name body.studentClass = Except.ok v := by
  obtain ⟨roll, name, cls⟩ := body
  simp only [fitsColumns, Bool.and_eq_true] at h
  obtain ⟨⟨h1, h2⟩, h3⟩ := h
  have e1 : ∃ r, bindInteger roll = Except.ok r := by
    cases roll with
    | none => exact ⟨none, rfl⟩
    | some k => exact ⟨some k, bindInteger_inRange (by simpa [fitsInteger] using h1)⟩
  have e2 : ∀ (n : Nat) (v : Option String), fitsVarchar n v = true →
      ∃ w, bindVarchar n v = Except.ok w := by
    intro n v hv
    cases v with
    | none => exact ⟨none, rfl⟩
    | some t =>
      simp only [fitsVarchar, Bool.and_eq_true, Bool.not_eq_true', Bool.or_eq_true,
        decide_eq_true_eq] at hv
      obtain ⟨h0, hv⟩ := hv
      by_cases hl : t.length ≤ n
      · exact ⟨some t, bindVarchar_short h0 hl⟩
      · rcases hv with hv | hv
        · exact absurd hv hl
        · exact ⟨some (String.mk (t.data.take n)), by
            simp only [bindVarchar, h0, Bool.false_eq_true, if_false, if_neg hl, hv, if_true]⟩
  obtain ⟨r, er⟩ := e1
  obtain ⟨n, en⟩ := e2 100 name h2
  obtain ⟨c, ec⟩ := e2 50 cls h3
  exact ⟨(r, n, c), by simp only [bindFields, er, en, ec]⟩

theorem updateRow_no_match (s : Store) (roll : Option Int) (name cls : Option String) (id : Int)
    (hno : ∀ x ∈ s.rows, x.id ≠ id) : updateRow s roll name cls id = (Except.ok [], s) := by
  have h : ¬ (s.rows.any fun x => x.id == id) = true := by
    simp only [List.any_eq_true, beq_iff_eq, not_exists, not_and]
    exact hno
  simp only [updateRow, if_neg h]

theorem assign_id (id r : Int) (n c : String) (x : Student) : (assign id r n c x).id = x.id := by
  unfold assign
  split_ifs <;> rfl

theorem assign_match {id r : Int} {n c : String} {x : Student} (h : x.id = id) :
    assign id r n c x = ⟨id, r, n, c⟩ := by
  subst h
  simp only [assign, if_true]

theorem assign_other {id r : Int} {n c : String} {x : Student} (h : x.id ≠ id) :
    assign id r n c x = x := by
  simp only [assign, if_neg h]

/-- The roll values stay pairwise distinct under the assignment when at most one row
carries the new roll afterwards. -/
theorem assign_rolls_nodup (rows : List Student) (id r : Int) (n c : String)
    (h : (rows.map (fun x => x.roll)).Nodup)
    (hle : ¬ 1 < ((rows.map (assign id r n c)).filter (fun x => x.roll == r)).length) :
    ((rows.map (assign id r n c)).map (fun x => x.roll)).Nodup := by
  rw [List.nodup_iff_count_le_one] at h ⊢
  intro a
  by_cases ha : a = r
  · subst ha
    rw [List.count_eq_countP, List.countP_map, List.countP_eq_length_filter]
    exact Nat.le_of_not_lt hle
  · refine le_trans ?_ (h a)
    rw [List.count_eq_countP, List.count_eq_countP, List.countP_map, List.countP_map,
      List.countP_map]
    apply List.countP_mono_left
    intro x _ hx
    by_cases hxid : x.id = id
    · rw [Function.comp_apply, Function.comp_apply, assign_match hxid] at hx
      simp only [beq_iff_eq] at hx
      exact absurd hx.symm ha
    · rw [Function.comp_apply, Function.comp_apply, assign_other hxid] at hx
      exact hx

theorem one_lt_length_of_mem {α : Type} {l : List α} {a b : α} (ha : a ∈ l) (hb : b ∈ l)
    (hab : a ≠ b) : 1 < l.length := by
  cases l with
  | nil => cases ha
  | cons c t =>
    have ht : 0 < t.length := by
      by_cases hac : a = c
      · have hbt : b ∈ t := by
          rcases List.mem_cons.mp hb with h | h
          · exact absurd (hac.trans h.symm) hab
          · exact h
        exact List.length_pos_of_mem hbt
      · rcases List.mem_cons.mp ha with h | h
        · exact absurd h hac
        · exact List.length_pos_of_mem h
    simp only [List.length_cons]
    omega

/-- The rows an `UPDATE` returns start with the new row of the path id. -/
theorem updated_rows_head (rows : List Student) (id r : Int) (n c : String)
    (hx : ∃ x ∈ rows, x.id = id) :
    ∃ t, (rows.map (assign id r n c)).filter (fun x => x.id == id) = ⟨id, r, n, c⟩ :: t := by
  have hall : ∀ y ∈ (rows.map (assign id r n c)).filter (fun x => x.id == id),
      y = ⟨id, r, n, c⟩ := by
    intro y hy
    simp only [List.mem_filter, List.mem_map, beq_iff_eq] at hy
    obtain ⟨⟨z, _, hzy⟩, hyid⟩ := hy
    have hz : z.id = id := by rw [← assign_id id r n c z, hzy]; exact hyid
    rw [← hzy, assign_match hz]
  obtain ⟨x, hxm, hxid⟩ := hx
  have hmem : (⟨id, r, n, c⟩ : Student)
      ∈ (rows.map (assign id r n c)).filter (fun x => x.id == id) := by
    simp only [List.mem_filter, List.mem_map, beq_iff_eq, and_true]
    exact ⟨x, hxm, assign_match hxid⟩
  cases hl : (rows.map (assign id r n c)).filter (fun x => x.id == id) with
  | nil => rw [hl] at hmem; cases hmem
  | cons y t =>
    have hy := hall y (by rw [hl]; exact List.mem_cons_self y t)
    rw [hy]
    exact ⟨t, rfl⟩

/-- The outcomes of the `UPDATE` statement: an error with the store as it was; no row and
the store as it was, when no row has the id; or the assignment, when a row has the id, the
three values are present and at most one row carries the new roll afterwards. -/
theorem execute_update_cases (s : Store) (roll : Option Int) (name cls : Option String)
    (id : Int) :
    (∃ msg, execute s (Statement.update roll name cls id) = (Except.error msg, s)) ∨
    ((∀ x ∈ s.rows, x.id ≠ id) ∧
      execute s (Statement.update roll name cls id) = (Except.ok [], s)) ∨
    (∃ (r : Int) (n c : String), roll = some r ∧ name ≠ none ∧ cls ≠ none ∧
      (∃ x ∈ s.rows, x.id = id) ∧
      ¬ 1 < ((s.rows.map (assign id r n c)).filter (fun x => x.roll == r)).length ∧
      execute s (Statement.update roll name cls id)
        = (Except.ok ((s.rows.map (assign id r n c)).filter (fun x => x.id == id)),
            ⟨s.rows.map (assign id r n c), s.nextId⟩)) := by
  cases hb : bindFields roll name cls with
  | error m => exact Or.inl ⟨m, by simp only [execute, hb]⟩
  | ok v =>
    obtain ⟨r1, n1, c1⟩ := v
    obtain ⟨hr, hn, hc⟩ := bindFields_ok hb
    by_cases hid : inInt4 id = true
    · by_cases hany : (s.rows.any fun x => x.id == id) = true
      · cases hnn : notNull r1 n1 c1 with
        | error m =>
          exact Or.inl ⟨m, by simp only [execute, hb, hid, if_true, updateRow, hany, hnn]⟩
        | ok w =>
          obtain ⟨r, n, c⟩ := w
          obtain ⟨er, en, ec⟩ := notNull_ok hnn
          by_cases hcount :
              1 < ((s.rows.map (assign id r n c)).filter (fun x => x.roll == r)).length
          · refine Or.inl ⟨"duplicate key value violates unique constraint \"students_roll_key\"", ?_⟩
            simp only [execute, hb, hid, if_true, updateRow, hany, hnn, hcount]
          · refine Or.inr (Or.inr ⟨r, n, c, ?_, ?_, ?_, ?_, hcount, ?_⟩)
            · rw [← hr, er]
            · intro hnone
              rw [hn hnone] at en
              cases en
            · intro hnone
              rw [hc hnone] at ec
              cases ec
            · simpa only [List.any_eq_true, beq_iff_eq] using hany
            · simp only [execute, hb, hid, if_true, updateRow, hany, hnn, hcount, if_false]
      · refine Or.inr (Or.inl ⟨?_, ?_⟩)
        · simpa only [List.any_eq_true, beq_iff_eq, not_exists, not_and] using hany
        · simp only [execute, hb, hid, if_true, updateRow, hany]
          rfl
    · exact Or.inl ⟨outOfRange id, by simp only [execute, hb, hid]; rfl⟩

/-- On a table with pairwise distinct ids, `DELETE ... WHERE id` removes the row of
that id and no other. -/
theorem filter_id_eq_erase (rows : List Student) (x : Student)
    (hu : (rows.map (fun y => y.id)).Nodup) (hx : x ∈ rows) :
    rows.filter (fun y => !(y.id == x.id)) = rows.erase x := by
  induction rows with
  | nil => cases hx
  | cons y t ih =>
    simp only [List.map_cons, List.nodup_cons, List.mem_map, not_exists, not_and] at hu
    obtain ⟨hy, ht⟩ := hu
    by_cases hyx : y = x
    · subst hyx
      have hkeep : t.filter (fun z => !(z.id == y.id)) = t := by
        rw [List.filter_eq_self]
        intro z hz
        have := hy z hz
        simpa using this
      simp [List.filter_cons, hkeep]
    · have hxt : x ∈ t := by
        rcases List.mem_cons.mp hx with h | h
        · exact absurd h.symm hyx
        · exact h
      have hne : y.id ≠ x.id := fun h => hy x hxt h.symm
      rw [List.filter_cons, List.erase_cons_tail (by simpa using hyx), ih ht hxt]
      simp [hne]

/-- On a table with pairwise distinct ids, when no other row carries the new roll, at
most one row carries it after the assignment. -/
theorem assign_count_le_one (rows : List Student) (id r : Int) (n c : String)
    (hu : (rows.map (fun x => x.id)).Nodup) (hother : ∀ y ∈ rows, y.roll = r → y.id = id) :
    ¬ 1 < ((rows.map (assign id r n c)).filter (fun x => x.roll == r)).length := by
  rw [← List.countP_eq_length_filter, List.countP_map, Nat.not_lt]
  have h1 : List.countP ((fun x => x.roll == r) ∘ assign id r n c) rows
      ≤ List.countP ((fun k => k == id) ∘ fun x => x.id) rows := by
    apply List.countP_mono_left
    intro x hx hxr
    by_cases hxid : x.id = id
    · simp [hxid]
    · rw [Function.comp_apply, assign_other hxid] at hxr
      simp only [beq_iff_eq] at hxr
      exact absurd (hother x hx hxr) hxid
  refine le_trans h1 ?_
  rw [← List.countP_map, ← List.count_eq_countP]
  exact List.nodup_iff_count_le_one.mp hu id

theorem insertRow_rollsUnique (s : Store) (roll : Option Int) (name cls : Option String)
    (h : rollsUnique s) : rollsUnique (insertRow s roll name cls).2 := by
  unfold rollsUnique at h ⊢
  by_cases h0 : 2147483647 < s.nextId
  · simpa [insertRow, h0] using h
  · cases hnn : notNull roll name cls with
    | error m => simpa [insertRow, h0, hnn] using h
    | ok v =>
      obtain ⟨r, n, c⟩ := v
      by_cases h1 : (s.rows.any fun x => x.id == (s.nextId : Int)) = true
      · simpa [insertRow, h0, hnn, h1] using h
      · by_cases h2 : (s.rows.any fun x => x.roll == r) = true
        · simpa [insertRow, h0, hnn, h1, h2] using h
        · have hfresh : ∀ x ∈ s.rows, x.roll ≠ r := by
            simpa only [List.any_eq_true, beq_iff_eq, not_exists, not_and] using h2
          simp only [insertRow, if_neg h0, hnn, if_neg h1, if_neg h2, List.map_append,
            List.map_cons, List.map_nil]
          rw [List.nodup_append]
          refine ⟨h, List.nodup_singleton r, ?_⟩
          intro a ha hb
          simp only [List.mem_map] at ha
          obtain ⟨x, hx, hxa⟩ := ha
          simp only [List.mem_singleton] at hb
          exact hfresh x hx (hxa.trans hb)

/-- Every statement keeps the roll values pairwise distinct. -/
theorem execute_rollsUnique (s : Store) (stmt : Statement) (h : rollsUnique s) :
    rollsUnique (execute s stmt).2 := by
  cases stmt with
  | selectAll => exact h
  | selectById id =>
    simp only [execute]
    split_ifs <;> exact h
  | insert roll name cls =>
    simp only [execute]
    cases hb : bindFields roll name cls with
    | error m => exact h
    | ok v =>
      obtain ⟨r, n, c⟩ := v
      exact insertRow_rollsUnique s r n c h
  | update roll name cls id =>
    rcases execute_update_cases s roll name cls id with ⟨m, he⟩ | ⟨_, he⟩ | ⟨r, n, c, _, _, _, _, hcount, he⟩
    · rw [he]; exact h
    · rw [he]; exact h
    · rw [he]
      exact assign_rolls_nodup s.rows id r n c h hcount
  | delete id =>
    simp only [execute]
    split_ifs
    · exact List.Nodup.sublist (List.Sublist.map _ (List.filter_sublist _)) h
    · exact h

theorem serve_snd (s : Store) (req : Request) :
    ∃ stmt, (serve s req).2 = (execute s stmt).2 := by
  cases req with
  | list =>
    refine ⟨Statement.selectAll, ?_⟩
    simp only [serve, getStudents]
    rcases execute s Statement.selectAll with ⟨res, s'⟩
    cases res <;> rfl
  | get id =>
    refine ⟨Statement.selectById id, ?_⟩
    simp only [serve, getStudentById]
    rcases execute s (Statement.selectById id) with ⟨res, s'⟩
    rcases res with m | rows
    · rfl
    · cases rows <;> rfl
  | create body =>
    refine ⟨Statement.insert body.roll body.name body.studentClass, ?_⟩
    simp only [serve, createStudent]
    rcases execute s (Statement.insert body.roll body.name body.studentClass) with ⟨res, s'⟩
    rcases res with m | rows
    · rfl
    · cases rows <;> rfl
  | update id body =>
    refine ⟨Statement.update body.roll body.name body.studentClass id, ?_⟩
    simp only [serve, updateStudent]
    rcases execute s (Statement.update body.roll body.name body.studentClass id) with ⟨res, s'⟩
    rcases res with m | rows
    · rfl
    · cases rows <;> rfl
  | delete id =>
    refine ⟨Statement.delete id, ?_⟩
    simp only [serve, deleteStudent]
    rcases execute s (Statement.delete id) with ⟨res, s'⟩
    rcases res with m | rows
    · rfl
    · cases rows <;> rfl

theorem serve_rollsUnique (s : Store) (req : Request) (h : rollsUnique s) :
    rollsUnique (serve s req).2 := by
  obtain ⟨stmt, hs⟩ := serve_snd s req
  rw [hs]
  exact execute_rollsUnique s stmt h

theorem serveAll_rollsUnique (reqs : List Request) :
    ∀ s : Store, rollsUnique s → rollsUnique (serveAll s reqs) := by
  induction reqs with
  | nil => intro s h; exact h
  | cons req rest ih =>
    intro s h
    exact ih (serve s req).2 (serve_rollsUnique s req h)

/-- A `PUT` on the id of a row, with the roll of another row, is refused. -/
theorem update_duplicate_refused (s : Store) (id : Int) (body : StudentBody) (r : Int)
    (hbody : body.roll = some r) (hx : ∃ x ∈ s.rows, x.id = id)
    (hy : ∃ y ∈ s.rows, y.id ≠ id ∧ y.roll = r) :
    ∃ msg, updateStudent execute s id body = (⟨500, Payload.error msg⟩, s) := by
  rcases execute_update_cases s body.roll body.name body.studentClass id with
    ⟨m, he⟩ | ⟨hno, _⟩ | ⟨r1, n, c, hr1, _, _, _, hcount, _⟩
  · exact ⟨m, by simp only [updateStudent, he]⟩
  · obtain ⟨x, hxm, hxid⟩ := hx
    exact absurd hxid (hno x hxm)
  · exfalso
    rw [hbody] at hr1
    cases hr1
    obtain ⟨x, hxm, hxid⟩ := hx
    obtain ⟨y, hym, hyid, hyr⟩ := hy
    apply hcount
    apply one_lt_length_of_mem
        (a := assign id r n c x) (b := assign id r n c y)
    · simp only [List.mem_filter, List.mem_map, beq_iff_eq]
      exact ⟨⟨x, hxm, rfl⟩, by rw [assign_match hxid]⟩
    · simp only [List.mem_filter, List.mem_map, beq_iff_eq]
      exact ⟨⟨y, hym, rfl⟩, by rw [assign_other hyid]; exact hyr⟩
    · intro heq
      have := congrArg Student.id heq
      rw [assign_id, assign_id] at this
      exact hyid (this ▸ hxid)

/-! ## The claims -/

/-- C1 (as amended): for every store state whose sequence is not exhausted and whose next
value is not an id in use, and every create body whose roll is a 32-bit integer not
already present, whose name has at most 100 characters and whose class has at most 50,
neither holding the character U+0000, `POST /api/students` responds 201 with the student
carrying the id the sequence assigns, and `GET /api/students/:id` on that id in the
resulting store responds 200 with a student whose roll, name and class are those of the
body. -/
theorem create_then_get (s : Store) (r : Int) (n c : String)
    (hseq : s.nextId ≤ 2147483647) (hid : ∀ x ∈ s.rows, x.id ≠ (s.nextId : Int))
    (hr : inInt4 r = true) (hfresh : ∀ x ∈ s.rows, x.roll ≠ r)
    (hn0 : hasNul n = false) (hn : n.length ≤ 100)
    (hc0 : hasNul c = false) (hc : c.length ≤ 50) :
    (createStudent execute s ⟨some r, some n, some c⟩).1
        = ⟨201, Payload.student ⟨s.nextId, r, n, c⟩⟩ ∧
      (getStudentById execute (createStudent execute s ⟨some r, some n, some c⟩).2 s.nextId).1
        = ⟨200, Payload.student ⟨s.nextId, r, n, c⟩⟩ := by
  have hx := execute_insert_fresh s r n c hseq hid hr hfresh hn0 hn hc0 hc
  have hcreate : createStudent execute s ⟨some r, some n, some c⟩
      = (⟨201, Payload.student ⟨s.nextId, r, n, c⟩⟩,
          ⟨s.rows ++ [⟨s.nextId, r, n, c⟩], s.nextId + 1⟩) := by
    simp only [createStudent, hx]
  have hfilter : s.rows.filter (fun x => x.id == (s.nextId : Int)) = [] := by
    simp only [List.filter_eq_nil_iff, beq_iff_eq]
    exact hid
  rw [hcreate]
  refine ⟨rfl, ?_⟩
  simp only [getStudentById, execute, inInt4_nextId s.nextId hseq, if_true,
    List.filter_append, hfilter, List.nil_append]
  simp [List.filter]

/-- C1, witness: on the table of two students, the create of roll 5, Carol, class 9C gets
the id 3 and the get on id 3 returns it. -/
theorem create_then_get_witness :
    (createStudent execute twoStudents ⟨some 5, some "Carol", some "9C"⟩).1
        = ⟨201, Payload.student ⟨twoStudents.nextId, 5, "Carol", "9C"⟩⟩ ∧
      (getStudentById execute
          (createStudent execute twoStudents ⟨some 5, some "Carol", some "9C"⟩).2
          twoStudents.nextId).1
        = ⟨200, Payload.student ⟨twoStudents.nextId, 5, "Carol", "9C"⟩⟩ :=
  create_then_get twoStudents 5 "Carol" "9C" (by decide) (by decide) (by decide)
    (by decide) (by decide) (by decide) (by decide) (by decide)

/-- C1, counterexample: on the empty table the body with roll 7, the 101-character name
(100 letters and a space) and class 10A has all three fields and a roll not present, and
the create responds 201 with id 1; the get on id 1 responds 200 with the name cut to 100
characters, which is not the name of the body. -/
theorem padded_create_reads_back_cut :
    paddedBody.roll = some 7 ∧ paddedBody.name = some paddedName ∧
      paddedBody.studentClass = some "10A" ∧ (∀ x ∈ init.rows, x.roll ≠ 7) ∧
      (createStudent execute init paddedBody).1
        = ⟨201, Payload.student ⟨1, 7, String.mk (List.replicate 100 'a'), "10A"⟩⟩ ∧
      (getStudentById execute (createStudent execute init paddedBody).2 1).1
        = ⟨200, Payload.student ⟨1, 7, String.mk (List.replicate 100 'a'), "10A"⟩⟩ ∧
      String.mk (List.replicate 100 'a') ≠ paddedName := by
  decide

/-- C2: for every store state that holds a student with roll `r`, `POST /api/students` with
a body of roll `r` responds 500 with a body `{error: msg}` (so never 201) and the store
holds the same rows afterwards. -/
theorem create_duplicate_roll (s : Store) (body : StudentBody) (r : Int)
    (hbody : body.roll = some r) (hdup : ∃ x ∈ s.rows, x.roll = r) :
    (∃ msg, (createStudent execute s body).1 = ⟨500, Payload.error msg⟩) ∧
      (createStudent execute s body).2.rows = s.rows := by
  apply createStudent_refused
  intro rows hok
  obtain ⟨r1, hr1, _, _, hfresh⟩ := execute_insert_ok hok
  rw [hbody] at hr1
  cases hr1
  obtain ⟨x, hx, hxr⟩ := hdup
  exact hfresh x hx hxr

/-- C2, witness: the scenario's create sent twice. -/
theorem create_duplicate_roll_witness :
    (∃ msg, (createStudent execute (createStudent execute init alice).2 alice).1
        = ⟨500, Payload.error msg⟩) ∧
      (createStudent execute (createStudent execute init alice).2 alice).2.rows
        = (createStudent execute init alice).2.rows :=
  create_duplicate_roll (createStudent execute init alice).2 alice 1 rfl
    ⟨⟨1, 1, "Alice", "10A"⟩, by decide, rfl⟩

/-- C10: for every store state and every create body in which at least one of roll, name
and class is absent, `POST /api/students` responds 500 with a body `{error: msg}` (so
never 201) and the store holds the same rows afterwards. -/
theorem create_missing_field (s : Store) (body : StudentBody)
    (hmiss : body.roll = none ∨ body.name = none ∨ body.studentClass = none) :
    (∃ msg, (createStudent execute s body).1 = ⟨500, Payload.error msg⟩) ∧
      (createStudent execute s body).2.rows = s.rows := by
  apply createStudent_refused
  intro rows hok
  obtain ⟨r1, hr1, hn, hc, _⟩ := execute_insert_ok hok
  rcases hmiss with h | h | h
  · rw [h] at hr1
    cases hr1
  · exact hn h
  · exact hc h

/-- C10, witness: a body without a class on the empty table. -/
theorem create_missing_field_witness :
    (∃ msg, (createStudent execute init ⟨some 1, some "Alice", none⟩).1
        = ⟨500, Payload.error msg⟩) ∧
      (createStudent execute init ⟨some 1, some "Alice", none⟩).2.rows = init.rows :=
  create_missing_field init ⟨some 1, some "Alice", none⟩ (Or.inr (Or.inr rfl))

/-- C3: for every store state, `GET /api/students` responds 200 with the rows in the order
of `ORDER BY roll`; that sequence is a permutation of the rows of the store and its roll
values are in ascending order; the store is as before. -/
theorem list_sorted_complete (s : Store) :
    getStudents execute s = (⟨200, Payload.students (orderByRoll s.rows)⟩, s) ∧
      (orderByRoll s.rows).Perm s.rows ∧
      ((orderByRoll s.rows).map (fun x => x.roll)).Sorted (fun a b => a ≤ b) := by
  refine ⟨rfl, List.perm_insertionSort _ _, ?_⟩
  haveI : IsTotal Student (fun a b => a.roll ≤ b.roll) := ⟨fun a b => le_total a.roll b.roll⟩
  haveI : IsTrans Student (fun a b => a.roll ≤ b.roll) :=
    ⟨fun _ _ _ hab hbc => le_trans hab hbc⟩
  have hs := List.sorted_insertionSort (fun a b : Student => a.roll ≤ b.roll) s.rows
  unfold List.Sorted at hs ⊢
  rw [List.pairwise_map]
  exact hs

/-- C4 (as amended): for every store state, every 32-bit integer id that matches no row,
and every body whose fields fit the columns (roll absent or a 32-bit integer; name and
class absent, or texts without the character U+0000 that have at most 100 and 50
characters or are longer by spaces only),
`PUT /api/students/:id` responds 404 with `{error: 'Student not found'}` and leaves the
store as it was. -/
theorem update_missing_id (s : Store) (id : Int) (body : StudentBody)
    (hid : inInt4 id = true) (hno : ∀ x ∈ s.rows, x.id ≠ id)
    (hfit : fitsColumns body = true) :
    updateStudent execute s id body = (⟨404, Payload.error "Student not found"⟩, s) := by
  obtain ⟨⟨r, n, c⟩, hb⟩ := bindFields_fits hfit
  simp only [updateStudent, execute, hb, hid, if_true, updateRow_no_match s r n c id hno]

/-- C4, witness: the scenario's table and the id 5. -/
theorem update_missing_id_witness :
    updateStudent execute aliceStore 5 alice
      = (⟨404, Payload.error "Student not found"⟩, aliceStore) :=
  update_missing_id aliceStore 5 alice (by decide) (by decide) (by decide)

/-- C4, counterexample: on the scenario's table no row has the id 2147483648, and the
`PUT` on that id responds 500, not 404. -/
theorem out_of_range_update_is_500 :
    (∀ x ∈ aliceStore.rows, x.id ≠ 2147483648) ∧
      (updateStudent execute aliceStore 2147483648 alice).1.status = 500 := by
  decide

/-- C5 (as amended): for every store state with pairwise distinct ids and every 32-bit
integer id: when the id matches a row, `DELETE /api/students/:id` responds 200 with
`{message: 'Student deleted'}`, the store afterwards is the store without that row, every
other row as it was, and `GET /api/students/:id` on the same id then responds 404; when
the id matches no row, the `DELETE` responds 404 and leaves the store as it was. -/
theorem delete_then_get (s : Store) (id : Int) (hid : inInt4 id = true) (hu : idsUnique s) :
    (∀ x ∈ s.rows, x.id = id →
      deleteStudent execute s id
        = (⟨200, Payload.message "Student deleted"⟩, ⟨s.rows.erase x, s.nextId⟩) ∧
      (getStudentById execute ⟨s.rows.erase x, s.nextId⟩ id).1
        = ⟨404, Payload.error "Student not found"⟩) ∧
    ((∀ x ∈ s.rows, x.id ≠ id) →
      deleteStudent execute s id = (⟨404, Payload.error "Student not found"⟩, s)) := by
  constructor
  · intro x hx hxid
    subst hxid
    have herase := filter_id_eq_erase s.rows x hu hx
    constructor
    · cases hl : s.rows.filter (fun y => y.id == x.id) with
      | nil =>
        have : x ∈ s.rows.filter (fun y => y.id == x.id) := by
          simp only [List.mem_filter, beq_self_eq_true, and_true]
          exact hx
        rw [hl] at this
        cases this
      | cons y t =>
        simp only [deleteStudent, execute, hid, if_true, hl, herase]
    · have hnone : (s.rows.erase x).filter (fun y => y.id == x.id) = [] := by
        rw [← herase, List.filter_filter, List.filter_eq_nil_iff]
        intro y _
        simp
      simp only [getStudentById, execute, hid, if_true, hnone]
  · intro hno
    have h1 : s.rows.filter (fun y => y.id == id) = [] := by
      simp only [List.filter_eq_nil_iff, beq_iff_eq]
      exact hno
    have h2 : s.rows.filter (fun y => !(y.id == id)) = s.rows := by
      rw [List.filter_eq_self]
      intro y hy
      simpa using hno y hy
    simp only [deleteStudent, execute, hid, if_true, h1, h2]

/-- C5, witness: on the table of two students, deleting id 1 leaves the other student and
a get on id 1 is then 404; deleting id 5 is 404 and changes nothing. -/
theorem delete_then_get_witness :
    (deleteStudent execute twoStudents 1
        = (⟨200, Payload.message "Student deleted"⟩, ⟨[⟨2, 2, "Bob", "9B"⟩], 3⟩) ∧
      (getStudentById execute ⟨[⟨2, 2, "Bob", "9B"⟩], 3⟩ 1).1
        = ⟨404, Payload.error "Student not found"⟩) ∧
    deleteStudent execute twoStudents 5
      = (⟨404, Payload.error "Student not found"⟩, twoStudents) :=
  ⟨(delete_then_get twoStudents 1 (by decide) (by decide)).1 ⟨1, 1, "Alice", "10A"⟩
      (by decide) rfl,
    (delete_then_get twoStudents 5 (by decide) (by decide)).2 (by decide)⟩

/-- C5, counterexample: on the scenario's table no row has the id 2147483648, and the
`DELETE` on that id responds 500, not 404. -/
theorem out_of_range_delete_is_500 :
    (∀ x ∈ aliceStore.rows, x.id ≠ 2147483648) ∧
      (deleteStudent execute aliceStore 2147483648).1.status = 500 := by
  decide

/-- C6: starting from a store in which no two rows share a roll, after any sequence of
requests (create, update, delete, also list and get; successful or failed) no two rows
share a roll; and in the store reached, a `PUT` on the id of a row whose body carries the
roll of a different row responds 500 and leaves the store as it was. -/
theorem roll_unique_invariant (s : Store) (reqs : List Request) (h : rollsUnique s) :
    rollsUnique (serveAll s reqs) ∧
      ∀ (id : Int) (body : StudentBody) (r : Int), body.roll = some r →
        (∃ x ∈ (serveAll s reqs).rows, x.id = id) →
        (∃ y ∈ (serveAll s reqs).rows, y.id ≠ id ∧ y.roll = r) →
        ∃ msg, updateStudent execute (serveAll s reqs) id body
          = (⟨500, Payload.error msg⟩, serveAll s reqs) :=
  ⟨serveAll_rollsUnique reqs s h,
    fun id body r hb hx hy => update_duplicate_refused (serveAll s reqs) id body r hb hx hy⟩

/-- C6, witness: from the empty table, two creates, a create and an update that collide on
a roll, and a delete. -/
theorem roll_unique_invariant_witness :
    rollsUnique (serveAll init [Request.create alice,
        Request.create ⟨some 2, some "Bob", some "9B"⟩,
        Request.create ⟨some 2, some "Carol", some "9B"⟩,
        Request.update 2 ⟨some 1, some "Bob", some "9B"⟩, Request.delete 1]) ∧
      ∀ (id : Int) (body : StudentBody) (r : Int), body.roll = some r →
        (∃ x ∈ (serveAll init [Request.create alice,
            Request.create ⟨some 2, some "Bob", some "9B"⟩,
            Request.create ⟨some 2, some "Carol", some "9B"⟩,
            Request.update 2 ⟨some 1, some "Bob", some "9B"⟩, Request.delete 1]).rows,
          x.id = id) →
        (∃ y ∈ (serveAll init [Request.create alice,
            Request.create ⟨some 2, some "Bob", some "9B"⟩,
            Request.create ⟨some 2, some "Carol", some "9B"⟩,
            Request.update 2 ⟨some 1, some "Bob", some "9B"⟩, Request.delete 1]).rows,
          y.id ≠ id ∧ y.roll = r) →
        ∃ msg, updateStudent execute (serveAll init [Request.create alice,
            Request.create ⟨some 2, some "Bob", some "9B"⟩,
            Request.create ⟨some 2, some "Carol", some "9B"⟩,
            Request.update 2 ⟨some 1, some "Bob", some "9B"⟩, Request.delete 1]) id body
          = (⟨500, Payload.error msg⟩, serveAll init [Request.create alice,
            Request.create ⟨some 2, some "Bob", some "9B"⟩,
            Request.create ⟨some 2, some "Carol", some "9B"⟩,
            Request.update 2 ⟨some 1, some "Bob", some "9B"⟩, Request.delete 1]) :=
  roll_unique_invariant init _ (by decide)

/-- C7 (as amended): for every store state with pairwise distinct ids, every 32-bit integer
id that matches a row, and every body whose roll is a 32-bit integer carried by no other
row, whose name has at most 100 characters and whose class has at most 50, neither
holding the character U+0000,
`PUT /api/students/:id` responds 200 with the student of the path id and the body's roll,
name and class; afterwards every row of that id holds those values under the same id,
every other row is as it was, and a get on the id returns that student. -/
theorem update_full_replace (s : Store) (id r : Int) (n c : String)
    (hu : idsUnique s) (hx : ∃ x ∈ s.rows, x.id = id) (hid : inInt4 id = true)
    (hr : inInt4 r = true) (hn0 : hasNul n = false) (hn : n.length ≤ 100)
    (hc0 : hasNul c = false) (hc : c.length ≤ 50)
    (hother : ∀ y ∈ s.rows, y.roll = r → y.id = id) :
    updateStudent execute s id ⟨some r, some n, some c⟩
        = (⟨200, Payload.student ⟨id, r, n, c⟩⟩,
            ⟨s.rows.map (fun y => if y.id = id then ⟨y.id, r, n, c⟩ else y), s.nextId⟩) ∧
      (getStudentById execute
          ⟨s.rows.map (fun y => if y.id = id then ⟨y.id, r, n, c⟩ else y), s.nextId⟩ id).1
        = ⟨200, Payload.student ⟨id, r, n, c⟩⟩ := by
  have hany : (s.rows.any fun x => x.id == id) = true := by
    simpa only [List.any_eq_true, beq_iff_eq] using hx
  have hcount := assign_count_le_one s.rows id r n c hu hother
  obtain ⟨t, ht⟩ := updated_rows_head s.rows id r n c hx
  have hmap : s.rows.map (fun y => if y.id = id then (⟨y.id, r, n, c⟩ : Student) else y)
      = s.rows.map (assign id r n c) := rfl
  rw [hmap]
  constructor
  · simp only [updateStudent, execute, bindFields_typed hr hn0 hn hc0 hc, hid, if_true, updateRow,
      hany, notNull, hcount, if_false, ht]
  · simp only [getStudentById, execute, hid, if_true, ht]

/-- C7, witness: on the table of two students, the update of id 2 to roll 5, Bo, 9C. -/
theorem update_full_replace_witness :
    updateStudent execute twoStudents 2 ⟨some 5, some "Bo", some "9C"⟩
        = (⟨200, Payload.student ⟨2, 5, "Bo", "9C"⟩⟩,
            ⟨twoStudents.rows.map (fun y => if y.id = 2 then ⟨y.id, 5, "Bo", "9C"⟩ else y),
              twoStudents.nextId⟩) ∧
      (getStudentById execute
          ⟨twoStudents.rows.map (fun y => if y.id = 2 then ⟨y.id, 5, "Bo", "9C"⟩ else y),
            twoStudents.nextId⟩ 2).1
        = ⟨200, Payload.student ⟨2, 5, "Bo", "9C"⟩⟩ :=
  update_full_replace twoStudents 2 5 "Bo" "9C" (by decide) (by decide) (by decide)
    (by decide) (by decide) (by decide) (by decide) (by decide) (by decide)

/-- C7, counterexample: on the scenario's table the store accepts the update of id 1 with
the body of roll 7, the 101-character name (100 letters and a space) and class 10A, and
the `PUT` responds 200 with the name cut to 100 characters, which is not the name of the
body. -/
theorem padded_update_is_cut :
    paddedBody.name = some paddedName ∧
      (updateStudent execute aliceStore 1 paddedBody).1
        = ⟨200, Payload.student ⟨1, 7, String.mk (List.replicate 100 'a'), "10A"⟩⟩ ∧
      String.mk (List.replicate 100 'a') ≠ paddedName := by
  decide

/-- C8: over any pool, each of the five data handlers turns an exception of its query
into status 500 with the body `{error: <the exception's message>}`, handing on the store
state the query left; and whatever the query does, list responds 200 or 500, create 201
or 500, and get, update and delete 200, 404 or 500. -/
theorem store_failure_is_500 {σ : Type} (query : Pool σ) (db : σ) :
    (∀ msg db', query db Statement.selectAll = (Except.error msg, db') →
      getStudents query db = (⟨500, Payload.error msg⟩, db')) ∧
    (∀ id msg db', query db (Statement.selectById id) = (Except.error msg, db') →
      getStudentById query db id = (⟨500, Payload.error msg⟩, db')) ∧
    (∀ body msg db',
      query db (Statement.insert body.roll body.name body.studentClass)
        = (Except.error msg, db') →
      createStudent query db body = (⟨500, Payload.error msg⟩, db')) ∧
    (∀ id body msg db',
      query db (Statement.update body.roll body.name body.studentClass id)
        = (Except.error msg, db') →
      updateStudent query db id body = (⟨500, Payload.error msg⟩, db')) ∧
    (∀ id msg db', query db (Statement.delete id) = (Except.error msg, db') →
      deleteStudent query db id = (⟨500, Payload.error msg⟩, db')) ∧
    ((getStudents query db).1.status = 200 ∨ (getStudents query db).1.status = 500) ∧
    (∀ id, (getStudentById query db id).1.status = 200 ∨
      (getStudentById query db id).1.status = 404 ∨
      (getStudentById query db id).1.status = 500) ∧
    (∀ body, (createStudent query db body).1.status = 201 ∨
      (createStudent query db body).1.status = 500) ∧
    (∀ id body, (updateStudent query db id body).1.status = 200 ∨
      (updateStudent query db id body).1.status = 404 ∨
      (updateStudent query db id body).1.status = 500) ∧
    (∀ id, (deleteStudent query db id).1.status = 200 ∨
      (deleteStudent query db id).1.status = 404 ∨
      (deleteStudent query db id).1.status = 500) := by
  refine ⟨?_, ?_, ?_, ?_, ?_, ?_, ?_, ?_, ?_, ?_⟩
  · intro msg db' h
    simp only [getStudents, h]
  · intro id msg db' h
    simp only [getStudentById, h]
  · intro body msg db' h
    simp only [createStudent, h]
  · intro id body msg db' h
    simp only [updateStudent, h]
  · intro id msg db' h
    simp only [deleteStudent, h]
  · unfold getStudents
    rcases query db Statement.selectAll with ⟨res, db'⟩
    rcases res with m | rows
    · exact Or.inr rfl
    · exact Or.inl rfl
  · intro id
    unfold getStudentById
    rcases query db (Statement.selectById id) with ⟨res, db'⟩
    rcases res with m | rows
    · exact Or.inr (Or.inr rfl)
    · cases rows
      · exact Or.inr (Or.inl rfl)
      · exact Or.inl rfl
  · intro body
    unfold createStudent
    rcases query db (Statement.insert body.roll body.name body.studentClass) with ⟨res, db'⟩
    rcases res with m | rows
    · exact Or.inr rfl
    · cases rows
      · exact Or.inl rfl
      · exact Or.inl rfl
  · intro id body
    unfold updateStudent
    rcases query db (Statement.update body.roll body.name body.studentClass id) with ⟨res, db'⟩
    rcases res with m | rows
    · exact Or.inr (Or.inr rfl)
    · cases rows
      · exact Or.inr (Or.inl rfl)
      · exact Or.inl rfl
  · intro id
    unfold deleteStudent
    rcases query db (Statement.delete id) with ⟨res, db'⟩
    rcases res with m | rows
    · exact Or.inr (Or.inr rfl)
    · cases rows
      · exact Or.inr (Or.inl rfl)
      · exact Or.inl rfl

/-- C8, witness: a pool whose queries throw `connection refused`, under list and create. -/
theorem store_failure_is_500_witness :
    getStudents (failingPool "connection refused") aliceStore
        = (⟨500, Payload.error "connection refused"⟩, aliceStore) ∧
      createStudent (failingPool "connection refused") aliceStore alice
        = (⟨500, Payload.error "connection refused"⟩, aliceStore) :=
  ⟨(store_failure_is_500 (failingPool "connection refused") aliceStore).1 _ _ rfl,
    (store_failure_is_500 (failingPool "connection refused") aliceStore).2.2.1 alice _ _ rfl⟩

/-- C9 (as amended): name and class are required, not non-empty: for every store state, a
create whose body lacks name or class responds 500 and leaves the rows as they were, and
an update whose body lacks name or class never responds 200 and leaves the store as it
was, on any id. -/
theorem name_class_required (s : Store) (body : StudentBody)
    (h : body.name = none ∨ body.studentClass = none) :
    ((∃ msg, (createStudent execute s body).1 = ⟨500, Payload.error msg⟩) ∧
      (createStudent execute s body).2.rows = s.rows) ∧
    ∀ id, (updateStudent execute s id body).1.status ≠ 200 ∧
      (updateStudent execute s id body).2 = s := by
  constructor
  · apply createStudent_refused
    intro rows hok
    obtain ⟨_, _, hn, hc, _⟩ := execute_insert_ok hok
    rcases h with h | h
    · exact hn h
    · exact hc h
  · intro id
    rcases execute_update_cases s body.roll body.name body.studentClass id with
      ⟨m, he⟩ | ⟨_, he⟩ | ⟨_, _, _, _, hn, hc, _, _, _⟩
    · simp only [updateStudent, he]
      exact ⟨by decide, trivial⟩
    · simp only [updateStudent, he]
      exact ⟨by decide, trivial⟩
    · rcases h with h | h
      · exact absurd h hn
      · exact absurd h hc

/-- C9, witness: a body without a name, on the scenario's table. -/
theorem name_class_required_witness :
    ((∃ msg, (createStudent execute aliceStore ⟨some 2, none, some "9B"⟩).1
        = ⟨500, Payload.error msg⟩) ∧
      (createStudent execute aliceStore ⟨some 2, none, some "9B"⟩).2.rows = aliceStore.rows) ∧
    ∀ id, (updateStudent execute aliceStore id ⟨some 2, none, some "9B"⟩).1.status ≠ 200 ∧
      (updateStudent execute aliceStore id ⟨some 2, none, some "9B"⟩).2 = aliceStore :=
  name_class_required aliceStore ⟨some 2, none, some "9B"⟩ (Or.inl rfl)

/-- C9, counterexample: on the empty table the create with name '' and class '' responds
201 and stores the row with the empty name and class; on the scenario's table the update
of id 1 with name '' and class '' responds 200 and stores them. -/
theorem empty_name_accepted :
    createStudent execute init ⟨some 1, some "", some ""⟩
        = (⟨201, Payload.student ⟨1, 1, "", ""⟩⟩, ⟨[⟨1, 1, "", ""⟩], 2⟩) ∧
      updateStudent execute aliceStore 1 ⟨some 1, some "", some ""⟩
        = (⟨200, Payload.student ⟨1, 1, "", ""⟩⟩, ⟨[⟨1, 1, "", ""⟩], 2⟩) := by
  decide

/-- A name holding U+0000 is refused by every statement that carries it: the create and
the updates, on an id with and without a row, respond 500 and leave the store as it
was. -/
theorem nul_name_refused :
    ((createStudent execute aliceStore ⟨some 2, some nulName, some "9B"⟩).1.status = 500 ∧
      (createStudent execute aliceStore ⟨some 2, some nulName, some "9B"⟩).2 = aliceStore) ∧
    ((updateStudent execute aliceStore 1 ⟨some 2, some nulName, some "9B"⟩).1.status = 500 ∧
      (updateStudent execute aliceStore 1 ⟨some 2, some nulName, some "9B"⟩).2 = aliceStore) ∧
    ((updateStudent execute aliceStore 5 ⟨some 2, some nulName, some "9B"⟩).1.status = 500 ∧
      (updateStudent execute aliceStore 5 ⟨some 2, some nulName, some "9B"⟩).2 = aliceStore) ∧
    fitsColumns ⟨some 2, some nulName, some "9B"⟩ = false := by
  decide

/-- The end-to-end scenario of the specification: create, list, update, delete, get. -/
theorem end_to_end_scenario :
    createStudent execute init alice
        = (⟨201, Payload.student ⟨1, 1, "Alice", "10A"⟩⟩, aliceStore) ∧
      (getStudents execute aliceStore).1
        = ⟨200, Payload.students [⟨1, 1, "Alice", "10A"⟩]⟩ ∧
      updateStudent execute aliceStore 1 ⟨some 1, some "Alice B", some "10A"⟩
        = (⟨200, Payload.student ⟨1, 1, "Alice B", "10A"⟩⟩,
            ⟨[⟨1, 1, "Alice B", "10A"⟩], 2⟩) ∧
      deleteStudent execute ⟨[⟨1, 1, "Alice B", "10A"⟩], 2⟩ 1
        = (⟨200, Payload.message "Student deleted"⟩, ⟨[], 2⟩) ∧
      (getStudentById execute ⟨[], 2⟩ 1).1 = ⟨404, Payload.error "Student not found"⟩ := by
  decide

end StudentApp
